import Mathlib

set_option maxRecDepth 20000

/-!
Verification of the Motion-Photo muxing subsystem of
bereal-gdpr-photo-toolkit (src/process-photos.py).

The development shallowly embeds, from the source:
  * the constant table SAMSUNG_TAG_IDS and the SamsungTags class
    (constructor, set_image_size, get_image_padding, get_video_size,
    video_footer), with Python bytes modelled as List Nat and
    struct.pack("<i", n) as the little-endian byte list of n modulo 2^32;
  * the XMP template constant MOTION_PHOTO_XMP_TEMPLATE and the three
    str.replace calls of create_motion_photo (lines 469-471), with
    Python str modelled as List Char and str.replace as a fuelled
    left-to-right scan (pyReplaceAll);
  * the filesystem/subprocess behaviour of create_motion_photo as a
    state function over an abstract environment (MuxEnv) recording
    which of its fallible steps succeed.
-/

def int32le (n : Nat) : List Nat :=
  [n % 256, n / 256 % 256, n / 65536 % 256, n / 16777216 % 256]

def strBytes (s : String) : List Nat := s.data.map Char.toNat

def idData : List Nat := [0x00, 0x00, 0x30, 0x0a]

def idVersion : List Nat := [0x00, 0x00, 0x31, 0x0a]

def SAMSUNG_TAG_IDS : List (String × List Nat) :=
  [("MotionPhoto_Data", idData), ("MotionPhoto_Version", idVersion)]

def SAMSUNG_SEFH_VERSION : Nat := 107

structure SamsungTags where
  video_bytes : List Nat
  video_size : Nat
  tags : List (String × List Nat)
  image_size : Option Int

def SamsungTags.init (video : List Nat) : SamsungTags :=
  { video_bytes := video
    video_size := video.length
    tags := [("MotionPhoto_Version", strBytes "mpv3"), ("MotionPhoto_Data", video)]
    image_size := none }

def hasTag (tags : List (String × List Nat)) (k : String) : Bool :=
  (tags.lookup k).isSome

def getTag (tags : List (String × List Nat)) (k : String) : List Nat :=
  (tags.lookup k).getD []

def alGet (m : List (String × Nat)) (k : String) : Nat :=
  (m.lookup k).getD 0

def alSet (m : List (String × Nat)) (k : String) (v : Nat) : List (String × Nat) :=
  match m with
  | [] => [(k, v)]
  | (k', v') :: rest => if k' == k then (k, v) :: rest else (k', v') :: alSet rest k v

def paddingLoop (tags : List (String × List Nat)) : List (String × List Nat) → Nat → Int
  | [], _ => -1
  | (tag, tid) :: rest, size =>
    if hasTag tags tag then
      if tag == "MotionPhoto_Data" then ((size + tid.length + 4 + tag.length : Nat) : Int)
      else paddingLoop tags rest (size + tid.length + 4 + tag.length + (getTag tags tag).length)
    else paddingLoop tags rest size

def SamsungTags.get_image_padding (st : SamsungTags) : Int :=
  paddingLoop st.tags SAMSUNG_TAG_IDS 0

def recordBytes (tag : String) (tid : List Nat) (payload : List Nat) : List Nat :=
  tid ++ int32le tag.length ++ strBytes tag ++ payload

def offsetsLoop (tags : List (String × List Nat)) (tag : String) (tlen : Nat) :
    List (String × List Nat) → List (String × Nat) → List (String × Nat)
  | [], offs => offs
  | (p, _) :: rest, offs =>
    if hasTag tags p then
      let offs2 := alSet offs p (tlen + alGet offs p)
      if p == tag then offs2 else offsetsLoop tags tag tlen rest offs2
    else offsetsLoop tags tag tlen rest offs

def buildTagData (tags : List (String × List Nat)) :
    List (String × List Nat) →
    List Nat × List (String × Nat) × List (String × Nat) →
    List Nat × List (String × Nat) × List (String × Nat)
  | [], acc => acc
  | (tag, tid) :: rest, (tagData, offs, lens) =>
    if hasTag tags tag then
      let rec1 := recordBytes tag tid (getTag tags tag)
      buildTagData tags rest
        (tagData ++ rec1, offsetsLoop tags tag rec1.length SAMSUNG_TAG_IDS offs,
         alSet lens tag rec1.length)
    else buildTagData tags rest (tagData, offs, lens)

def sefhEntries (tags : List (String × List Nat)) (offs lens : List (String × Nat)) :
    List (String × List Nat) → List Nat
  | [] => []
  | (tag, tid) :: rest =>
    if hasTag tags tag then
      tid ++ int32le (alGet offs tag) ++ int32le (alGet lens tag) ++ sefhEntries tags offs lens rest
    else sefhEntries tags offs lens rest

def SamsungTags.video_footer (st : SamsungTags) : List Nat :=
  let acc := buildTagData st.tags SAMSUNG_TAG_IDS ([], [], [])
  let sefh := strBytes "SEFH" ++ int32le SAMSUNG_SEFH_VERSION ++ int32le st.tags.length
    ++ sefhEntries st.tags acc.2.1 acc.2.2 SAMSUNG_TAG_IDS
  acc.1 ++ (sefh ++ int32le sefh.length ++ strBytes "SEFT")

def SamsungTags.get_video_size (st : SamsungTags) : Int :=
  ((st.video_footer).length : Int) - st.get_image_padding

def SamsungTags.set_image_size (st : SamsungTags) (n : Int) : SamsungTags :=
  { st with image_size := some n }

def dataRecHead : List Nat := idData ++ int32le 16 ++ strBytes "MotionPhoto_Data"

def versionRec : List Nat :=
  recordBytes "MotionPhoto_Version" idVersion (strBytes "mpv3")

def footerTail (n : Nat) : List Nat :=
  versionRec ++ strBytes "SEFH" ++ int32le 107 ++ int32le 2
    ++ idData ++ int32le (n + 55) ++ int32le (n + 24)
    ++ idVersion ++ int32le 31 ++ int32le 31
    ++ int32le 36 ++ strBytes "SEFT"

theorem footer_decomp (v : List Nat) :
    (SamsungTags.init v).video_footer = dataRecHead ++ v ++ footerTail v.length := by
  simp [SamsungTags.video_footer, SamsungTags.init, buildTagData, offsetsLoop, sefhEntries,
    recordBytes, alSet, alGet, hasTag, getTag, strBytes, int32le, SAMSUNG_TAG_IDS,
    SAMSUNG_SEFH_VERSION, dataRecHead, versionRec, footerTail, List.lookup, idData, idVersion,
    show "MotionPhoto_Data".length = 16 from rfl]
  omega

theorem footer_length (v : List Nat) :
    ((SamsungTags.init v).video_footer).length = v.length + 99 := by
  rw [footer_decomp]
  simp [dataRecHead, footerTail, versionRec, recordBytes, strBytes, int32le, idData, idVersion]

def readLE32 (bs : List Nat) (i : Nat) : Nat :=
  bs.getD i 0 + 256 * (bs.getD (i+1) 0 + 256 * (bs.getD (i+2) 0 + 256 * (bs.getD (i+3) 0)))

def read4 (bs : List Nat) (i : Nat) : List Nat :=
  [bs.getD i 0, bs.getD (i+1) 0, bs.getD (i+2) 0, bs.getD (i+3) 0]

def parseSefh (footer : List Nat) : List (List Nat × Nat × Nat) :=
  let n := footer.length
  let sefhLen := readLE32 footer (n - 8)
  let hdr := n - 8 - sefhLen
  let count := readLE32 footer (hdr + 8)
  (List.range count).map (fun k =>
    (read4 footer (hdr + 12 + 12 * k),
     readLE32 footer (hdr + 12 + 12 * k + 4),
     readLE32 footer (hdr + 12 + 12 * k + 8)))

theorem readLE32_append (X T : List Nat) (j : Nat) :
    readLE32 (X ++ T) (X.length + j) = readLE32 T j := by
  unfold readLE32
  rw [List.getD_append_right X T 0 (X.length + j) (by omega),
      List.getD_append_right X T 0 (X.length + j + 1) (by omega),
      List.getD_append_right X T 0 (X.length + j + 2) (by omega),
      List.getD_append_right X T 0 (X.length + j + 3) (by omega),
      show X.length + j - X.length = j from by omega,
      show X.length + j + 1 - X.length = j + 1 from by omega,
      show X.length + j + 2 - X.length = j + 2 from by omega,
      show X.length + j + 3 - X.length = j + 3 from by omega]

theorem read4_append (X T : List Nat) (j : Nat) :
    read4 (X ++ T) (X.length + j) = read4 T j := by
  unfold read4
  rw [List.getD_append_right X T 0 (X.length + j) (by omega),
      List.getD_append_right X T 0 (X.length + j + 1) (by omega),
      List.getD_append_right X T 0 (X.length + j + 2) (by omega),
      List.getD_append_right X T 0 (X.length + j + 3) (by omega),
      show X.length + j - X.length = j from by omega,
      show X.length + j + 1 - X.length = j + 1 from by omega,
      show X.length + j + 2 - X.length = j + 2 from by omega,
      show X.length + j + 3 - X.length = j + 3 from by omega]

theorem readLE32_at (X Y : List Nat) (k : Nat) :
    readLE32 (X ++ (int32le k ++ Y)) X.length = k % 4294967296 := by
  have h := readLE32_append X (int32le k ++ Y) 0
  rw [Nat.add_zero] at h
  rw [h]
  unfold readLE32 int32le
  simp [List.getD]
  omega

theorem read4_at (X Y : List Nat) (a b c d : Nat) :
    read4 (X ++ ([a, b, c, d] ++ Y)) X.length = [a, b, c, d] := by
  have h := read4_append X ([a, b, c, d] ++ Y) 0
  rw [Nat.add_zero] at h
  rw [h]
  unfold read4
  simp [List.getD]

def tailP39 : List Nat := versionRec ++ strBytes "SEFH" ++ int32le 107

def tailP43 : List Nat := tailP39 ++ int32le 2

def tailP47 : List Nat := tailP43 ++ idData

def tailP51 (n : Nat) : List Nat := tailP47 ++ int32le (n + 55)

def tailP55 (n : Nat) : List Nat := tailP51 n ++ int32le (n + 24)

def tailP59 (n : Nat) : List Nat := tailP55 n ++ idVersion

def tailP63 (n : Nat) : List Nat := tailP59 n ++ int32le 31

def tailP67 (n : Nat) : List Nat := tailP63 n ++ int32le 31

theorem tail_read67 (n : Nat) : readLE32 (footerTail n) 67 = 36 := by
  have e : footerTail n = tailP67 n ++ (int32le 36 ++ strBytes "SEFT") := by
    simp [footerTail, tailP67, tailP63, tailP59, tailP55, tailP51, tailP47, tailP43, tailP39,
      List.append_assoc]
  have el : (tailP67 n).length = 67 := by
    simp [tailP67, tailP63, tailP59, tailP55, tailP51, tailP47, tailP43, tailP39,
      versionRec, recordBytes, strBytes, int32le, idData, idVersion]
  rw [e, show (67 : Nat) = (tailP67 n).length from el.symm, readLE32_at]

theorem tail_read39 (n : Nat) : readLE32 (footerTail n) 39 = 2 := by
  have e : footerTail n = tailP39 ++ (int32le 2 ++ (idData ++ int32le (n + 55) ++ int32le (n + 24)
      ++ idVersion ++ int32le 31 ++ int32le 31 ++ int32le 36 ++ strBytes "SEFT")) := by
    simp [footerTail, tailP39, List.append_assoc]
  have el : tailP39.length = 39 := by
    simp [tailP39, versionRec, recordBytes, strBytes, int32le, idVersion]
  rw [e, show (39 : Nat) = tailP39.length from el.symm, readLE32_at]

theorem tail_read43 (n : Nat) : read4 (footerTail n) 43 = idData := by
  have e : footerTail n = tailP43 ++ ([0x00, 0x00, 0x30, 0x0a] ++ (int32le (n + 55)
      ++ int32le (n + 24) ++ idVersion ++ int32le 31 ++ int32le 31 ++ int32le 36
      ++ strBytes "SEFT")) := by
    simp [footerTail, tailP43, tailP39, idData, List.append_assoc]
  have el : tailP43.length = 43 := by
    simp [tailP43, tailP39, versionRec, recordBytes, strBytes, int32le, idVersion]
  rw [e, show (43 : Nat) = tailP43.length from el.symm, read4_at, idData]

theorem tail_read47 (n : Nat) : readLE32 (footerTail n) 47 = (n + 55) % 4294967296 := by
  have e : footerTail n = tailP47 ++ (int32le (n + 55) ++ (int32le (n + 24) ++ idVersion
      ++ int32le 31 ++ int32le 31 ++ int32le 36 ++ strBytes "SEFT")) := by
    simp [footerTail, tailP47, tailP43, tailP39, List.append_assoc]
  have el : tailP47.length = 47 := by
    simp [tailP47, tailP43, tailP39, versionRec, recordBytes, strBytes, int32le, idData, idVersion]
  rw [e, show (47 : Nat) = tailP47.length from el.symm, readLE32_at]

theorem tail_read51 (n : Nat) : readLE32 (footerTail n) 51 = (n + 24) % 4294967296 := by
  have e : footerTail n = tailP51 n ++ (int32le (n + 24) ++ (idVersion ++ int32le 31
      ++ int32le 31 ++ int32le 36 ++ strBytes "SEFT")) := by
    simp [footerTail, tailP51, tailP47, tailP43, tailP39, List.append_assoc]
  have el : (tailP51 n).length = 51 := by
    simp [tailP51, tailP47, tailP43, tailP39, versionRec, recordBytes, strBytes, int32le,
      idData, idVersion]
  rw [e, show (51 : Nat) = (tailP51 n).length from el.symm, readLE32_at]

theorem tail_read55 (n : Nat) : read4 (footerTail n) 55 = idVersion := by
  have e : footerTail n = tailP55 n ++ ([0x00, 0x00, 0x31, 0x0a] ++ (int32le 31 ++ int32le 31
      ++ int32le 36 ++ strBytes "SEFT")) := by
    simp [footerTail, tailP55, tailP51, tailP47, tailP43, tailP39, idVersion, List.append_assoc]
  have el : (tailP55 n).length = 55 := by
    simp [tailP55, tailP51, tailP47, tailP43, tailP39, versionRec, recordBytes, strBytes,
      int32le, idData, idVersion]
  rw [e, show (55 : Nat) = (tailP55 n).length from el.symm, read4_at, idVersion]

theorem tail_read59 (n : Nat) : readLE32 (footerTail n) 59 = 31 := by
  have e : footerTail n = tailP59 n ++ (int32le 31 ++ (int32le 31 ++ int32le 36
      ++ strBytes "SEFT")) := by
    simp [footerTail, tailP59, tailP55, tailP51, tailP47, tailP43, tailP39, List.append_assoc]
  have el : (tailP59 n).length = 59 := by
    simp [tailP59, tailP55, tailP51, tailP47, tailP43, tailP39, versionRec, recordBytes,
      strBytes, int32le, idData, idVersion]
  rw [e, show (59 : Nat) = (tailP59 n).length from el.symm, readLE32_at]

theorem tail_read63 (n : Nat) : readLE32 (footerTail n) 63 = 31 := by
  have e : footerTail n = tailP63 n ++ (int32le 31 ++ (int32le 36 ++ strBytes "SEFT")) := by
    simp [footerTail, tailP63, tailP59, tailP55, tailP51, tailP47, tailP43, tailP39,
      List.append_assoc]
  have el : (tailP63 n).length = 63 := by
    simp [tailP63, tailP59, tailP55, tailP51, tailP47, tailP43, tailP39, versionRec, recordBytes,
      strBytes, int32le, idData, idVersion]
  rw [e, show (63 : Nat) = (tailP63 n).length from el.symm, readLE32_at]

theorem dataRecHead_v_length (v : List Nat) : (dataRecHead ++ v).length = v.length + 24 := by
  simp [dataRecHead, int32le, strBytes, idData]

theorem parse_roundtrip (v : List Nat) (h : v.length + 55 < 4294967296) :
    parseSefh ((SamsungTags.init v).video_footer) =
      [(idData, v.length + 55, v.length + 24), (idVersion, 31, 31)] := by
  have hd : (SamsungTags.init v).video_footer = (dataRecHead ++ v) ++ footerTail v.length := by
    rw [footer_decomp, List.append_assoc]
  have hX := dataRecHead_v_length v
  have hlen2 : ((dataRecHead ++ v) ++ footerTail v.length).length = v.length + 99 := by
    rw [← hd, footer_length]
  simp only [parseSefh, hd, hlen2]
  rw [show v.length + 99 - 8 = (dataRecHead ++ v).length + 67 from by simp only [hX]; omega]
  rw [readLE32_append, tail_read67]
  rw [show (dataRecHead ++ v).length + 67 - 36 + 8 = (dataRecHead ++ v).length + 39 from by omega]
  rw [readLE32_append, tail_read39]
  rw [show List.range 2 = [0, 1] from rfl]
  simp only [List.map_cons, List.map_nil]
  rw [show (dataRecHead ++ v).length + 67 - 36 + 12 + 12 * 0
        = (dataRecHead ++ v).length + 43 from by omega]
  rw [show (dataRecHead ++ v).length + 43 + 4 = (dataRecHead ++ v).length + 47 from by omega]
  rw [show (dataRecHead ++ v).length + 43 + 8 = (dataRecHead ++ v).length + 51 from by omega]
  rw [show (dataRecHead ++ v).length + 43 + 12 * 1 = (dataRecHead ++ v).length + 55 from by omega]
  rw [show (dataRecHead ++ v).length + 55 + 4 = (dataRecHead ++ v).length + 59 from by omega]
  rw [show (dataRecHead ++ v).length + 55 + 8 = (dataRecHead ++ v).length + 63 from by omega]
  rw [readLE32_append, readLE32_append, readLE32_append, readLE32_append,
      read4_append, read4_append]
  rw [tail_read43, tail_read47, tail_read51, tail_read55, tail_read59, tail_read63]
  rw [show (v.length + 55) % 4294967296 = v.length + 55 from by omega,
      show (v.length + 24) % 4294967296 = v.length + 24 from by omega]

def pyReplace (pat repl : List Char) : Nat → List Char → List Char
  | 0, s => s
  | _ + 1, [] => []
  | fuel + 1, c :: rest =>
    if pat.isPrefixOf (c :: rest) then
      repl ++ pyReplace pat repl fuel (List.drop (pat.length - 1) rest)
    else c :: pyReplace pat repl fuel rest

def pyReplaceAll (s pat repl : List Char) : List Char := pyReplace pat repl s.length s

def noOcc (pat : List Char) : List Char → Bool
  | [] => true
  | c :: rest => !(pat.isPrefixOf (c :: rest)) && noOcc pat rest

def noHit (pat : List Char) : List Char → List Char → Bool
  | [], _ => true
  | c :: a, t => !(pat.isPrefixOf (c :: (a ++ t))) && noHit pat a t


theorem pyReplace_fuel (p : Char) (pt repl : List Char) :
    ∀ f g s, s.length ≤ f → s.length ≤ g →
      pyReplace (p :: pt) repl f s = pyReplace (p :: pt) repl g s := by
  intro f
  induction f with
  | zero =>
    intro g s hf _
    have : s = [] := List.eq_nil_of_length_eq_zero (by omega)
    subst this
    cases g <;> rfl
  | succ f ih =>
    intro g s hf hg
    cases s with
    | nil => cases g <;> rfl
    | cons c rest =>
      cases g with
      | zero => simp at hg
      | succ g =>
        simp only [pyReplace]
        by_cases hpre : (p :: pt).isPrefixOf (c :: rest) = true
        · rw [if_pos hpre, if_pos hpre]
          have hlen : (List.drop ((p :: pt).length - 1) rest).length ≤ f := by
            simp only [List.length_drop]
            simp only [List.length_cons] at hf
            omega
          have hlen2 : (List.drop ((p :: pt).length - 1) rest).length ≤ g := by
            simp only [List.length_drop]
            simp only [List.length_cons] at hg
            omega
          rw [ih g _ hlen hlen2]
        · rw [if_neg hpre, if_neg hpre]
          have hlen : rest.length ≤ f := by simp only [List.length_cons] at hf; omega
          have hlen2 : rest.length ≤ g := by simp only [List.length_cons] at hg; omega
          rw [ih g rest hlen hlen2]

theorem pyReplace_noHit (p : Char) (pt repl : List Char) :
    ∀ a t f, noHit (p :: pt) a t = true → (a ++ t).length ≤ f →
      pyReplace (p :: pt) repl f (a ++ t) = a ++ pyReplace (p :: pt) repl (f - a.length) t := by
  intro a
  induction a with
  | nil =>
    intro t f _ _
    simp
  | cons c a ih =>
    intro t f hnh hf
    simp only [noHit, Bool.and_eq_true, Bool.not_eq_true'] at hnh
    obtain ⟨hpre, hrest⟩ := hnh
    cases f with
    | zero => simp only [List.length_append, List.length_cons] at hf; omega
    | succ f =>
      simp only [List.cons_append, pyReplace]
      rw [if_neg (by simp [hpre])]
      have hf2 : (a ++ t).length ≤ f := by
        simp only [List.length_append] at hf ⊢
        simp only [List.length_cons] at hf
        omega
      rw [show f + 1 - (c :: a).length = f - a.length from by
        simp only [List.length_cons]; omega]
      rw [← ih t f hrest hf2]
      rfl

theorem pyReplace_noOcc (p : Char) (pt repl : List Char) :
    ∀ s f, noOcc (p :: pt) s = true → s.length ≤ f →
      pyReplace (p :: pt) repl f s = s := by
  intro s
  induction s with
  | nil => intro f _ _; cases f <;> rfl
  | cons c rest ih =>
    intro f hocc hf
    simp only [noOcc, Bool.and_eq_true, Bool.not_eq_true'] at hocc
    obtain ⟨hpre, hrest⟩ := hocc
    cases f with
    | zero => simp only [List.length_cons] at hf; omega
    | succ f =>
      simp only [pyReplace]
      rw [if_neg (by simp [hpre])]
      rw [ih f hrest (by simp only [List.length_cons] at hf; omega)]

theorem isPrefixOf_self_append (p : Char) (pt b : List Char) :
    (p :: pt).isPrefixOf ((p :: pt) ++ b) = true := by
  rw [List.isPrefixOf_iff_prefix]
  exact List.prefix_append _ _

theorem replaceAll_split (p : Char) (pt repl a b : List Char)
    (h : noHit (p :: pt) a ((p :: pt) ++ b) = true) :
    pyReplaceAll (a ++ (p :: pt) ++ b) (p :: pt) repl
      = a ++ repl ++ pyReplaceAll b (p :: pt) repl := by
  have h' : noHit (p :: pt) a (p :: (pt ++ b)) = true := by
    rw [← List.cons_append]
    exact h
  unfold pyReplaceAll
  rw [show a ++ (p :: pt) ++ b = a ++ (p :: (pt ++ b)) from by simp]
  rw [pyReplace_noHit p pt repl a (p :: (pt ++ b)) _ h' (le_refl _)]
  rw [show (a ++ (p :: (pt ++ b))).length - a.length = (pt ++ b).length + 1 from by
    simp only [List.length_append, List.length_cons]; omega]
  simp only [pyReplace]
  rw [if_pos (show (p :: pt).isPrefixOf (p :: (pt ++ b)) = true from by
    rw [← List.cons_append]; exact isPrefixOf_self_append p pt b)]
  rw [show (p :: pt).length - 1 = pt.length from by simp]
  rw [List.drop_left pt b]
  rw [pyReplace_fuel p pt repl (pt ++ b).length b.length b
    (by simp only [List.length_append]; omega) (le_refl _)]
  rw [List.append_assoc]

theorem replaceAll_noOcc (p : Char) (pt repl s : List Char)
    (h : noOcc (p :: pt) s = true) :
    pyReplaceAll s (p :: pt) repl = s :=
  pyReplace_noOcc p pt repl s s.length h (le_refl _)

theorem isPrefixOf_through_digits (pat : List Char) :
    ∀ x d y, pat.all (fun c => !c.isDigit) = true → d.all Char.isDigit = true → d ≠ [] →
      pat.isPrefixOf (x ++ (d ++ y)) = true → pat.isPrefixOf x = true := by
  induction pat with
  | nil => intro x d y _ _ _ _; cases x <;> rfl
  | cons c ct ih =>
    intro x d y hp hd hne hpre
    simp only [List.all_cons, Bool.and_eq_true, Bool.not_eq_true'] at hp
    obtain ⟨hc, hct⟩ := hp
    cases x with
    | nil =>
      exfalso
      cases d with
      | nil => exact hne rfl
      | cons e d' =>
        simp only [List.nil_append, List.cons_append, List.isPrefixOf,
          Bool.and_eq_true, beq_iff_eq] at hpre
        simp only [List.all_cons, Bool.and_eq_true] at hd
        rw [hpre.1] at hc
        rw [hd.1] at hc
        simp at hc
    | cons a x' =>
      simp only [List.cons_append, List.isPrefixOf, Bool.and_eq_true] at hpre ⊢
      exact ⟨hpre.1, ih x' d y hct hd hne hpre.2⟩

theorem noHit_digits_mid (p : Char) (pt : List Char)
    (hp : (p :: pt).all (fun c => !c.isDigit) = true) :
    ∀ d y t, d.all Char.isDigit = true → noHit (p :: pt) y t = true →
      noHit (p :: pt) (d ++ y) t = true := by
  intro d
  induction d with
  | nil => intro y t _ hy; simpa using hy
  | cons e d' ih =>
    intro y t hd hy
    simp only [List.all_cons, Bool.and_eq_true] at hd
    simp only [List.all_cons, Bool.and_eq_true, Bool.not_eq_true'] at hp
    simp only [List.cons_append, noHit, Bool.and_eq_true, Bool.not_eq_true']
    constructor
    · have hpe : (p == e) = false := by
        rcases Bool.eq_false_or_eq_true (p == e) with ht | hf
        · exfalso
          have hpe2 : p = e := eq_of_beq ht
          rw [hpe2] at hp
          exact absurd hd.1 (by simp [hp.1])
        · exact hf
      simp [List.isPrefixOf, hpe]
    · exact ih y t hd.2 hy

theorem noHit_across (p : Char) (pt : List Char)
    (hp : (p :: pt).all (fun c => !c.isDigit) = true) :
    ∀ x d y t, d.all Char.isDigit = true → d ≠ [] →
      noOcc (p :: pt) x = true → noHit (p :: pt) y t = true →
      noHit (p :: pt) (x ++ d ++ y) t = true := by
  intro x
  induction x with
  | nil =>
    intro d y t hd _ _ hy
    simpa using noHit_digits_mid p pt hp d y t hd hy
  | cons c x' ih =>
    intro d y t hd hne hx hy
    simp only [noOcc, Bool.and_eq_true, Bool.not_eq_true'] at hx
    obtain ⟨hx0, hx'⟩ := hx
    simp only [List.cons_append, noHit, Bool.and_eq_true, Bool.not_eq_true']
    constructor
    · have key : ∀ z : List Char, z = (c :: x') ++ (d ++ (y ++ t)) →
          (p :: pt).isPrefixOf z = false := by
        intro z hz
        subst hz
        rcases Bool.eq_false_or_eq_true ((p :: pt).isPrefixOf ((c :: x') ++ (d ++ (y ++ t))))
          with ht | hf
        · exfalso
          have hth := isPrefixOf_through_digits (p :: pt) (c :: x') d (y ++ t) hp hd hne ht
          rw [hx0] at hth
          exact Bool.false_ne_true hth
        · exact hf
      exact key _ (by simp)
    · exact ih d y t hd hne hx' hy

def decChar (d : Nat) : Char := Char.ofNat (48 + d)

def decAux : Nat → Nat → List Char → List Char
  | 0, _, acc => acc
  | f + 1, n, acc => if n < 10 then decChar n :: acc else decAux f (n / 10) (decChar (n % 10) :: acc)

def decStr (n : Nat) : List Char := decAux (n + 1) n []


theorem decChar_isDigit (d : Nat) (h : d < 10) : (decChar d).isDigit = true := by
  interval_cases d <;> decide

theorem decAux_all_digit :
    ∀ f n acc, acc.all Char.isDigit = true → (decAux f n acc).all Char.isDigit = true := by
  intro f
  induction f with
  | zero => intro n acc h; exact h
  | succ f ih =>
    intro n acc h
    simp only [decAux]
    by_cases hn : n < 10
    · rw [if_pos hn]
      simp [decChar_isDigit n hn, h]
    · rw [if_neg hn]
      exact ih (n / 10) _ (by simp [decChar_isDigit (n % 10) (Nat.mod_lt n (by omega)), h])

theorem decStr_all_digit (n : Nat) : (decStr n).all Char.isDigit = true :=
  decAux_all_digit (n + 1) n [] rfl

theorem decAux_ne_nil_of_acc (f n : Nat) (acc : List Char) (h : acc ≠ []) :
    decAux f n acc ≠ [] := by
  induction f generalizing n acc with
  | zero => exact h
  | succ f ih =>
    simp only [decAux]
    by_cases hn : n < 10
    · rw [if_pos hn]; simp
    · rw [if_neg hn]
      exact ih (n / 10) _ (by simp)

theorem decStr_ne_nil (n : Nat) : decStr n ≠ [] := by
  unfold decStr decAux
  by_cases hn : n < 10
  · rw [if_pos hn]; simp
  · rw [if_neg hn]
    exact decAux_ne_nil_of_acc n (n / 10) _ (by simp)
def MOTION_PHOTO_XMP_TEMPLATE : String := "<x:xmpmeta xmlns:x=\"adobe:ns:meta/\" x:xmptk=\"Adobe XMP Core 5.1.0-jc003\">\n  <rdf:RDF xmlns:rdf=\"http://www.w3.org/1999/02/22-rdf-syntax-ns#\">\n    <rdf:Description rdf:about=\"\"\n        xmlns:GCamera=\"http://ns.google.com/photos/1.0/camera/\"\n        xmlns:Container=\"http://ns.google.com/photos/1.0/container/\"\n        xmlns:Item=\"http://ns.google.com/photos/1.0/container/item/\"\n      GCamera:MotionPhoto=\"1\"\n      GCamera:MotionPhotoVersion=\"1\"\n      GCamera:MotionPhotoPresentationTimestampUs=\"-1\">\n      <Container:Directory>\n        <rdf:Seq>\n          <rdf:li rdf:parseType=\"Resource\">\n            <Container:Item\n              Item:Mime=\"image/jpeg\"\n              Item:Semantic=\"Primary\"\n              Item:Length=\"0\"\n              Item:Padding=\"{padding}\"/>\n          </rdf:li>\n          <rdf:li rdf:parseType=\"Resource\">\n            <Container:Item\n              Item:Mime=\"video/mp4\"\n              Item:Semantic=\"MotionPhoto\"\n              Item:Length=\"{length}\"\n              Item:Padding=\"0\"/>\n          </rdf:li>\n        </rdf:Seq>\n      </Container:Directory>\n    </rdf:Description>\n  </rdf:RDF>\n</x:xmpmeta>"

def xmpChunk0 : String := "<x:xmpmeta xmlns:x=\"adobe:ns:meta/\" x:xmptk=\"Adobe XMP Core 5.1.0-jc003\">\n  <rdf:RDF xmlns:rdf=\"http://www.w3.org/1999/02/22-rdf-syntax-ns#\">\n    <rdf:Description rdf:about=\"\"\n        xmlns:GCamera=\"http://ns.google.com/photos/1.0/camera/\"\n        xmlns:Container=\"http://ns.google.com/photos/1.0/container/\"\n        xmlns:Item=\"http://ns.google.com/photos/1.0/container/item/\"\n      GCamera:MotionPhoto=\"1\"\n      GCamera:MotionPhotoVersion=\"1\"\n      GCamera:MotionPhotoPresentationTimestampUs=\"-1\">\n      <Container:Directory>\n        <rdf:Seq>\n          <rdf:li rdf:parseType=\"Resource\">\n            <Container:Item\n              Item:Mime=\"image/jpeg\"\n              Item:Semantic=\"Primary\"\n              "

def xmpChunk1 : String := "\n              "

def xmpChunk2 : String := "/>\n          </rdf:li>\n          <rdf:li rdf:parseType=\"Resource\">\n            <Container:Item\n              Item:Mime=\"video/mp4\"\n              Item:Semantic=\"MotionPhoto\"\n              "

def xmpChunk3 : String := "\n              Item:Padding=\"0\"/>\n          </rdf:li>\n        </rdf:Seq>\n      </Container:Directory>\n    </rdf:Description>\n  </rdf:RDF>\n</x:xmpmeta>"
def pat1 : String := "Item:Length=\"0\""

def pat2 : String := "Item:Padding=\"{padding}\""

def pat3 : String := "Item:Length=\"{length}\""

def pat1tail : List Char := ("tem:Length=\"0\"").data

def pat2tail : List Char := ("tem:Padding=\"{padding}\"").data

def pat3tail : List Char := ("tem:Length=\"{length}\"").data

def lenOpen : List Char := ("Item:Length=\"").data

def padOpen : List Char := ("Item:Padding=\"").data

def replLength (n : Nat) : List Char := lenOpen ++ decStr n ++ ['"']

def replPadding (n : Nat) : List Char := padOpen ++ decStr n ++ ['"']

def renderXmp (padding videoSize : Nat) : List Char :=
  pyReplaceAll
    (pyReplaceAll
      (pyReplaceAll MOTION_PHOTO_XMP_TEMPLATE.data pat1.data (replLength videoSize))
      pat2.data (replPadding padding))
    pat3.data (replLength videoSize)

def xmpB1 : List Char :=
  xmpChunk1.data ++ pat2.data ++ xmpChunk2.data ++ pat3.data ++ xmpChunk3.data

def xmpB2 : List Char := xmpChunk2.data ++ pat3.data ++ xmpChunk3.data

theorem render_step1 (v : Nat) :
    pyReplaceAll MOTION_PHOTO_XMP_TEMPLATE.data pat1.data (replLength v)
      = xmpChunk0.data ++ replLength v ++ xmpB1 := by
  rw [show pat1.data = 'I' :: pat1tail from rfl]
  rw [show MOTION_PHOTO_XMP_TEMPLATE.data = xmpChunk0.data ++ ('I' :: pat1tail) ++ xmpB1 from
    by decide]
  rw [replaceAll_split 'I' pat1tail (replLength v) xmpChunk0.data xmpB1 (by decide)]
  rw [replaceAll_noOcc 'I' pat1tail (replLength v) xmpB1 (by decide)]

theorem render_step2 (p v : Nat) :
    pyReplaceAll (xmpChunk0.data ++ replLength v ++ xmpB1) pat2.data (replPadding p)
      = (xmpChunk0.data ++ lenOpen) ++ decStr v ++ ('"' :: xmpChunk1.data)
          ++ replPadding p ++ xmpB2 := by
  rw [show pat2.data = 'I' :: pat2tail from rfl]
  rw [show xmpChunk0.data ++ replLength v ++ xmpB1
        = ((xmpChunk0.data ++ lenOpen) ++ decStr v ++ ('"' :: xmpChunk1.data))
            ++ ('I' :: pat2tail) ++ xmpB2 from by
    simp [replLength, xmpB1, xmpB2, show pat2.data = 'I' :: pat2tail from rfl,
      List.append_assoc]]
  rw [replaceAll_split 'I' pat2tail (replPadding p)
    ((xmpChunk0.data ++ lenOpen) ++ decStr v ++ ('"' :: xmpChunk1.data)) xmpB2
    (noHit_across 'I' pat2tail (by decide) (xmpChunk0.data ++ lenOpen) (decStr v)
      ('"' :: xmpChunk1.data) (('I' :: pat2tail) ++ xmpB2)
      (decStr_all_digit v) (decStr_ne_nil v) (by decide) (by decide))]
  rw [replaceAll_noOcc 'I' pat2tail (replPadding p) xmpB2 (by decide)]

theorem render_step3 (p v : Nat) :
    pyReplaceAll ((xmpChunk0.data ++ lenOpen) ++ decStr v ++ ('"' :: xmpChunk1.data)
        ++ replPadding p ++ xmpB2) pat3.data (replLength v)
      = (xmpChunk0.data ++ lenOpen) ++ decStr v
          ++ (('"' :: (xmpChunk1.data ++ padOpen)) ++ decStr p ++ ('"' :: xmpChunk2.data))
          ++ replLength v ++ xmpChunk3.data := by
  rw [show pat3.data = 'I' :: pat3tail from rfl]
  rw [show (xmpChunk0.data ++ lenOpen) ++ decStr v ++ ('"' :: xmpChunk1.data)
        ++ replPadding p ++ xmpB2
      = ((xmpChunk0.data ++ lenOpen) ++ decStr v
          ++ (('"' :: (xmpChunk1.data ++ padOpen)) ++ decStr p ++ ('"' :: xmpChunk2.data)))
            ++ ('I' :: pat3tail) ++ xmpChunk3.data from by
    simp [replPadding, xmpB2, show pat3.data = 'I' :: pat3tail from rfl, List.append_assoc]]
  rw [replaceAll_split 'I' pat3tail (replLength v)
    ((xmpChunk0.data ++ lenOpen) ++ decStr v
      ++ (('"' :: (xmpChunk1.data ++ padOpen)) ++ decStr p ++ ('"' :: xmpChunk2.data)))
    xmpChunk3.data
    (noHit_across 'I' pat3tail (by decide) (xmpChunk0.data ++ lenOpen) (decStr v)
      (('"' :: (xmpChunk1.data ++ padOpen)) ++ decStr p ++ ('"' :: xmpChunk2.data))
      (('I' :: pat3tail) ++ xmpChunk3.data)
      (decStr_all_digit v) (decStr_ne_nil v) (by decide)
      (noHit_across 'I' pat3tail (by decide) ('"' :: (xmpChunk1.data ++ padOpen)) (decStr p)
        ('"' :: xmpChunk2.data) (('I' :: pat3tail) ++ xmpChunk3.data)
        (decStr_all_digit p) (decStr_ne_nil p) (by decide) (by decide)))]
  rw [replaceAll_noOcc 'I' pat3tail (replLength v) xmpChunk3.data (by decide)]

theorem renderXmp_eq (p v : Nat) :
    renderXmp p v
      = xmpChunk0.data ++ replLength v ++ xmpChunk1.data ++ replPadding p
        ++ xmpChunk2.data ++ replLength v ++ xmpChunk3.data := by
  unfold renderXmp
  rw [render_step1 v, render_step2 p v, render_step3 p v]
  simp [replLength, replPadding, List.append_assoc]

def specRenderXmp (padding videoSize : Nat) : List Char :=
  pyReplaceAll
    (pyReplaceAll MOTION_PHOTO_XMP_TEMPLATE.data pat2.data (replPadding padding))
    pat3.data (replLength videoSize)

theorem digit_not_brace (c : Char) (h : c.isDigit = true) : (!(c == '\x7b')) = true := by
  rcases Bool.eq_false_or_eq_true (c == '\x7b') with ht | hf
  · exfalso
    have hc : c = '\x7b' := eq_of_beq ht
    rw [hc] at h
    exact absurd h (by decide)
  · simp [hf]

theorem all_digit_no_brace (d : List Char) (h : d.all Char.isDigit = true) :
    d.all (fun c => !(c == '\x7b')) = true := by
  rw [List.all_eq_true] at h ⊢
  intro c hc
  exact digit_not_brace c (h c hc)

theorem renderXmp_no_brace (p v : Nat) :
    (renderXmp p v).all (fun c => !(c == '\x7b')) = true := by
  rw [renderXmp_eq]
  simp only [replLength, replPadding, List.all_append, Bool.and_eq_true, List.append_assoc]
  and_intros <;> first
    | decide
    | exact all_digit_no_brace _ (decStr_all_digit v)
    | exact all_digit_no_brace _ (decStr_all_digit p)

theorem tagData_decomp (v : List Nat) :
    (buildTagData (SamsungTags.init v).tags SAMSUNG_TAG_IDS ([], [], [])).1
      = dataRecHead ++ v ++ versionRec := by
  simp [SamsungTags.init, buildTagData, offsetsLoop, recordBytes, alSet, alGet, hasTag, getTag,
    strBytes, int32le, SAMSUNG_TAG_IDS, dataRecHead, versionRec, List.lookup, idData, idVersion,
    show "MotionPhoto_Data".length = 16 from rfl]

/-- Abstract environment for one `create_motion_photo` job: the contents of the
video file (`none` models an unreadable file, i.e. the initial read raising),
whether the sidecar write and the `shutil.copy2` succeed, whether the
`subprocess.run` call itself raises (e.g. the exiftool binary is missing), the
tool's exit code and captured stderr, the transformation exiftool applies in
place to the working copy, and whether the final write succeeds. -/
structure MuxEnv where
  videoBytes : Option (List Nat)
  writeXmpOk : Bool
  copyOk : Bool
  exifRaises : Bool
  exifExit : Nat
  exifStderr : String
  exifResult : List Nat → List Nat
  finalWriteOk : Bool

/-- The files of one job on return: the bytes at the original image path, the
sidecar (`image.xmp_temp`) if it still exists, and the working copy
(`temp_image`) if it still exists. -/
structure MuxFs where
  original : List Nat
  sidecar : Option (List Char)
  temp : Option (List Nat)

/-- Result of a job: `success` models `return True`; `injectionFailure s`
models the nonzero-exit path that logs the tool's captured stderr `s` and
returns `False`; `exn` models the exception handler path (log + `return
False`). -/
inductive MuxOutcome where
  | success : MuxOutcome
  | injectionFailure : String → MuxOutcome
  | exn : MuxOutcome
deriving DecidableEq

/-- The `create_motion_photo(image_path, video_path)` pipeline of
process-photos.py (lines 449-525), as a function from the environment and the
original image bytes to the outcome and the files left on disk.  Each branch
mirrors one exit path of the Python code, including the cleanup performed by
the `except` handler (which unlinks the sidecar and the working copy when they
exist).  Deletions themselves are modelled as always succeeding. -/
def create_motion_photo (env : MuxEnv) (img : List Nat) : MuxOutcome × MuxFs :=
  match env.videoBytes with
  | none => (MuxOutcome.exn, ⟨img, none, none⟩)
  | some video =>
    let tags := SamsungTags.init video
    let video_size := tags.get_video_size
    let image_padding := tags.get_image_padding
    let xmp_content := renderXmp image_padding.toNat video_size.toNat
    if env.writeXmpOk then
      if env.copyOk then
        if env.exifRaises then
          (MuxOutcome.exn, ⟨img, none, none⟩)
        else
          if env.exifExit ≠ 0 then
            (MuxOutcome.injectionFailure env.exifStderr, ⟨img, none, none⟩)
          else
            let image_bytes := env.exifResult img
            let tags2 := tags.set_image_size (image_bytes.length : Int)
            let footer := tags2.video_footer
            if env.finalWriteOk then
              (MuxOutcome.success, ⟨image_bytes ++ footer, none, none⟩)
            else
              (MuxOutcome.exn, ⟨image_bytes, none, none⟩)
      else
        (MuxOutcome.exn, ⟨img, none, none⟩)
    else
      (MuxOutcome.exn, ⟨img, none, none⟩)

/-- Claim C1 (amended): for every nonnegative padding and video_size, the
rendered XMP directory descriptor substitutes all three attribute spots: the
primary (image) entry's item-length, which the template spells as the literal
`0`, is replaced by the decimal string of video_size (it is NOT left as the
literal 0), the padding placeholder receives the decimal string of padding,
and the secondary (video) entry's item-length placeholder receives the decimal
string of video_size; the result is the template's four fixed chunks with the
decimal strings in place, and it contains no brace character, hence no
unsubstituted placeholder token. -/
theorem claim_C1 (p v : Nat) :
    renderXmp p v
      = xmpChunk0.data ++ (lenOpen ++ decStr v ++ ['"']) ++ xmpChunk1.data
        ++ (padOpen ++ decStr p ++ ['"']) ++ xmpChunk2.data
        ++ (lenOpen ++ decStr v ++ ['"']) ++ xmpChunk3.data
    ∧ (renderXmp p v).all (fun c => !(c == '\x7b')) = true := by
  constructor
  · rw [renderXmp_eq]
    simp [replLength, replPadding, List.append_assoc]
  · exact renderXmp_no_brace p v

/-- Claim C1 counterexample: at padding 24 and video_size 199 the code's
rendering (renderXmp, the three replace calls of create_motion_photo) no
longer contains the primary entry's literal item-length token
`Item:Length="0"`, whereas the rendering described by the spec's words
(specRenderXmp, which substitutes only the two active placeholders) still
contains it: the claim that the primary item-length is left as the literal 0
is false on the code. -/
theorem claim_C1_counterexample :
    noOcc pat1.data (renderXmp 24 199) = true
      ∧ noOcc pat1.data (specRenderXmp 24 199) = false := by
  constructor <;> decide

def v100 : List Nat := List.replicate 100 7

/-- Claim C2 (amended): in the emitted SEFH header block, each present tag's
offset field equals the cumulative byte length from the START OF THAT TAG'S
RECORD to the END of the tag-record region (its own record length plus the
record lengths of all tags after it in table order), not the cumulative offset
from the start of the region up to and including the tag; the length field is
the tag's own record length; re-deriving the offset/length pairs from the
emitted header block (parseSefh) yields exactly those values. -/
theorem claim_C2 (v : List Nat) (h : v.length + 55 < 4294967296) :
    parseSefh ((SamsungTags.init v).video_footer)
      = [(idData,
          (recordBytes "MotionPhoto_Data" idData v).length + versionRec.length,
          (recordBytes "MotionPhoto_Data" idData v).length),
         (idVersion, versionRec.length, versionRec.length)] := by
  rw [parse_roundtrip v h]
  have h1 : (recordBytes "MotionPhoto_Data" idData v).length = v.length + 24 := by
    simp [recordBytes, idData, int32le, strBytes, show "MotionPhoto_Data".length = 16 from rfl]
  have h2 : versionRec.length = 31 := by decide
  rw [h1, h2, show v.length + 24 + 31 = v.length + 55 from by omega]

/-- Claim C2 witness: the amended statement evaluated on the spec's synthetic
100-byte video. -/
theorem claim_C2_witness :
    v100.length + 55 < 4294967296
      ∧ parseSefh ((SamsungTags.init v100).video_footer)
        = [(idData,
            (recordBytes "MotionPhoto_Data" idData v100).length + versionRec.length,
            (recordBytes "MotionPhoto_Data" idData v100).length),
           (idVersion, versionRec.length, versionRec.length)] :=
  ⟨by decide, claim_C2 v100 (by decide)⟩

/-- Claim C2 counterexample: for the 100-byte video, the claim predicts
prefix-cumulative offsets (Data, the first record of 124 bytes, would get
offset 124 and Version would get 155); the emitted header block instead
carries (Data, 155) and (Version, 31). -/
theorem claim_C2_counterexample :
    parseSefh ((SamsungTags.init v100).video_footer)
      ≠ [(idData,
          (recordBytes "MotionPhoto_Data" idData v100).length,
          (recordBytes "MotionPhoto_Data" idData v100).length),
         (idVersion,
          (recordBytes "MotionPhoto_Data" idData v100).length + versionRec.length,
          versionRec.length)] := by
  decide

/-- Claim C3 (amended): for every video payload the footer's byte length
equals (8 + len("MotionPhoto_Version") + 4) + (8 + len("MotionPhoto_Data") +
L) + (4 + 4 + 4 + (4+4+4)*2 + 4 + 4): the claim's final header-block term
overcounts the 4-byte magics and the 4-byte per-entry type codes as 8 bytes
each; the correct header-block size is 44 bytes, not 56, so the total is
99 + L, not 111 + L. -/
theorem claim_C3 (v : List Nat) :
    ((SamsungTags.init v).video_footer).length
      = (8 + "MotionPhoto_Version".length + 4) + (8 + "MotionPhoto_Data".length + v.length)
        + (4 + 4 + 4 + (4 + 4 + 4) * 2 + 4 + 4) := by
  rw [footer_length, show "MotionPhoto_Version".length = 19 from rfl,
    show "MotionPhoto_Data".length = 16 from rfl]
  omega

/-- Claim C3 counterexample: at L = 0 the encoder output length is 99, not the
claim's (8 + 19 + 4) + (8 + 16 + 0) + (8 + 4 + 4 + (8+4+4)*2 + 4 + 4) = 111. -/
theorem claim_C3_counterexample :
    ¬ ((SamsungTags.init []).video_footer).length
      = (8 + "MotionPhoto_Version".length + 4)
        + (8 + "MotionPhoto_Data".length + ([] : List Nat).length)
        + (8 + 4 + 4 + (8 + 4 + 4) * 2 + 4 + 4) := by
  decide

/-- Claim C4 (amended): image_padding equals the byte count of everything in
the MotionPhoto_Data record preceding the raw video bytes within the
tag-record region — the Data record's type code, length field and name, 24
bytes, the Data record being FIRST in the table — and not the size of the
version-tag's full record (which is 31 bytes and comes after the video
bytes). -/
theorem claim_C4 (v : List Nat) :
    (buildTagData (SamsungTags.init v).tags SAMSUNG_TAG_IDS ([], [], [])).1
        = dataRecHead ++ v ++ versionRec
      ∧ (SamsungTags.init v).get_image_padding = (dataRecHead.length : Int)
      ∧ dataRecHead.length = 24 :=
  ⟨tagData_decomp v, rfl, rfl⟩

/-- Claim C4 counterexample: for the 100-byte video the padding is 24, which
is not the size of the version-tag's full record (31). -/
theorem claim_C4_counterexample :
    (SamsungTags.init v100).get_image_padding
      ≠ (((recordBytes "MotionPhoto_Version" idVersion (strBytes "mpv3")).length : Nat) : Int) := by
  decide

/-- Claim C5 (confirmed): for every byte string v, the encoder accepts v (the
embedding is total) and the footer bytes from get_image_padding() to
get_image_padding() + len(v) are exactly v: the padding marks the offset
within the tag-record region at which the video payload begins. -/
theorem claim_C5 (v : List Nat) :
    (((SamsungTags.init v).video_footer).drop
        ((SamsungTags.init v).get_image_padding).toNat).take v.length = v := by
  rw [footer_decomp,
    show ((SamsungTags.init v).get_image_padding).toNat = dataRecHead.length from rfl,
    List.append_assoc,
    List.drop_left dataRecHead (v ++ footerTail v.length),
    List.take_left v (footerTail v.length)]

/-- Claim C6 (confirmed): get_video_size() is exactly the byte length of
video_footer() minus get_image_padding(), by the definition replicated from
the source. -/
theorem claim_C6 (v : List Nat) :
    (SamsungTags.init v).get_video_size
      = (((SamsungTags.init v).video_footer).length : Int)
        - (SamsungTags.init v).get_image_padding := rfl

/-- Claim C7 (confirmed): whenever the job reaches the external
metadata-injection tool (video readable, sidecar written, working copy made,
the subprocess call itself not raising) and the tool reports a nonzero exit
status, the mux ends in the injection-failure outcome carrying the tool's
captured stderr (the code logs that diagnostic and returns False), the working
copy and the sidecar are gone, and the bytes at the original image path are
unchanged — no output is produced. -/
theorem claim_C7 (env : MuxEnv) (img v : List Nat)
    (hv : env.videoBytes = some v) (hw : env.writeXmpOk = true) (hc : env.copyOk = true)
    (hr : env.exifRaises = false) (he : env.exifExit ≠ 0) :
    create_motion_photo env img
      = (MuxOutcome.injectionFailure env.exifStderr, ⟨img, none, none⟩) := by
  simp [create_motion_photo, hv, hw, hc, hr, he]

def muxEnvW : MuxEnv :=
  { videoBytes := some [1, 2, 3]
    writeXmpOk := true
    copyOk := true
    exifRaises := false
    exifExit := 1
    exifStderr := "exiftool: not a valid XMP"
    exifResult := fun b => b
    finalWriteOk := true }

/-- Claim C7 witness: a concrete environment whose tool exits with status 1. -/
theorem claim_C7_witness :
    create_motion_photo muxEnvW [9, 9]
      = (MuxOutcome.injectionFailure muxEnvW.exifStderr, ⟨[9, 9], none, none⟩) :=
  claim_C7 muxEnvW [9, 9] [1, 2, 3] rfl rfl rfl rfl (by decide)

/-- Claim C8 (confirmed): on every exit path of a mux job — success, tool
failure, or an exception at any step (unreadable video, sidecar write failure,
copy failure between sidecar creation and tool invocation, the subprocess call
raising, or the final write failing) — neither the sidecar nor the working
copy exists when the call returns. -/
theorem claim_C8 (env : MuxEnv) (img : List Nat) :
    (create_motion_photo env img).2.sidecar = none
      ∧ (create_motion_photo env img).2.temp = none := by
  unfold create_motion_photo
  cases hv : env.videoBytes <;>
    by_cases h1 : env.writeXmpOk <;> by_cases h2 : env.copyOk <;>
    by_cases h3 : env.exifRaises <;> by_cases h4 : env.exifExit = 0 <;>
    by_cases h5 : env.finalWriteOk <;>
    simp [h1, h2, h3, h4, h5]

/-- Claim C9 (confirmed): set_image_size only records the image size attribute
and alters neither video_footer() nor get_image_padding() nor
get_video_size(). -/
theorem claim_C9 (st : SamsungTags) (n : Int) :
    (st.set_image_size n).video_footer = st.video_footer
      ∧ (st.set_image_size n).get_image_padding = st.get_image_padding
      ∧ (st.set_image_size n).get_video_size = st.get_video_size :=
  ⟨rfl, rfl, rfl⟩

/-- Claim C10 (confirmed): the constructor always populates both required tags,
so get_image_padding never takes its -1 error return: for every video payload
(including the empty one) it returns the constant 24 — the MotionPhoto_Data
record's 4-byte type code plus 4-byte length field plus 16-byte name —
independent of the video's content or length. -/
theorem claim_C10 (v : List Nat) :
    (SamsungTags.init v).get_image_padding
        = ((idData.length + 4 + "MotionPhoto_Data".length : Nat) : Int)
      ∧ (SamsungTags.init v).get_image_padding = 24
      ∧ (SamsungTags.init v).get_image_padding ≠ -1 :=
  ⟨rfl, rfl, fun h => by
    rw [show (SamsungTags.init v).get_image_padding = 24 from rfl] at h
    exact absurd h (by decide)⟩
